import Mathlib

/-!
# Dark-mode document reader: verification of the rendering/host core

Shallow embedding of the dark-mode document reader (a browser-based
PDF/Word/Text viewer).  Pure functions of the source are translated
directly; React `useState`/`useEffect` behaviour is modelled as explicit
state passing with React's dependency-array semantics (an effect's
cleanup runs, and its body re-runs, exactly when its dependency tuple
changes).  Real-valued quantities (zoom, contrast, opacity, colour
channels) are embedded as rationals.
-/

namespace DarkReader

/-- JavaScript `String.prototype.endsWith`, embedded on the character
list of the string. -/
def strEndsWith (s suff : String) : Bool := suff.data.isSuffixOf s.data

/-- A browser `File` as the detector sees it: a name and a declared
media type (`File.type`, possibly empty). -/
structure JSFile where
  name : String
  type : String
deriving DecidableEq

/-- The `FileType` union of `page.tsx` (`"pdf" | "word" | "text"`);
the source's `null` case is `Option.none` in the embedding. -/
inductive FileType where
  | pdf
  | word
  | text
deriving DecidableEq

/-- `getFileType` from `src/app/page.tsx`: PDF by exact media type;
Word by media type or `.docx`/`.doc` name suffix; Text by media type or
`.txt` name suffix; otherwise `null`. -/
def getFileType (file : JSFile) : Option FileType :=
  if file.type = "application/pdf" then some .pdf
  else if file.type = "application/vnd.openxmlformats-officedocument.wordprocessingml.document"
      ∨ file.type = "application/msword"
      ∨ strEndsWith file.name ".docx"
      ∨ strEndsWith file.name ".doc" then some .word
  else if file.type = "text/plain" ∨ strEndsWith file.name ".txt" then some .text
  else none

/-- Modelled from the spec: the Format Detector contract as the spec
words it — "(1) exact declared media type match against the three known
signatures; (2) filename extension fallback (`.pdf`, `.docx`/`.doc`,
`.txt`)", Unsupported otherwise.  Used only to compare the spec's
decision order against `getFileType`. -/
def detectSpecOrder (file : JSFile) : Option FileType :=
  if file.type = "application/pdf" then some .pdf
  else if file.type = "application/vnd.openxmlformats-officedocument.wordprocessingml.document"
      ∨ file.type = "application/msword" then some .word
  else if file.type = "text/plain" then some .text
  else if strEndsWith file.name ".pdf" then some .pdf
  else if strEndsWith file.name ".docx" ∨ strEndsWith file.name ".doc" then some .word
  else if strEndsWith file.name ".txt" then some .text
  else none

end DarkReader

namespace DarkReader

/-- C1 counterexample: the code's detection order is not "media type
first, then extension fallback for all three formats".  A file named
`report.pdf` with an empty media type would be PDF under the spec's
decision order (extension fallback includes `.pdf`) but `getFileType`
returns `null`; and a `text/plain` file named `report.docx` would be
Text under the spec's order (media type takes precedence) but the code
classifies it Word. -/
theorem getFileType_ne_specOrder :
    getFileType ⟨"report.pdf", ""⟩ = none
      ∧ detectSpecOrder ⟨"report.pdf", ""⟩ = some FileType.pdf
      ∧ getFileType ⟨"report.docx", "text/plain"⟩ = some FileType.word
      ∧ detectSpecOrder ⟨"report.docx", "text/plain"⟩ = some FileType.text := by
  refine ⟨?_, ?_, ?_, ?_⟩ <;> decide

/-- C1 (amended): detection tries PDF, Word, Text in order; PDF matches
by exact media type only (there is no `.pdf` extension fallback); Word
matches by media type or `.docx`/`.doc` suffix; Text matches by media
type or `.txt` suffix, but only when the Word check failed.  In
particular `report.docx` with an absent media type is Word, and a file
with PDF media type but a `.txt` name is PDF. -/
theorem getFileType_order :
    getFileType ⟨"report.docx", ""⟩ = some FileType.word
      ∧ getFileType ⟨"notes.txt", "application/pdf"⟩ = some FileType.pdf
      ∧ (∀ f : JSFile, getFileType f = some FileType.pdf ↔ f.type = "application/pdf")
      ∧ (∀ f : JSFile, f.type = "text/plain" →
          strEndsWith f.name ".docx" = false → strEndsWith f.name ".doc" = false →
          getFileType f = some FileType.text)
      ∧ (∀ f : JSFile, f.type ≠ "application/pdf" →
          strEndsWith f.name ".docx" = true → getFileType f = some FileType.word) := by
  refine ⟨by decide, by decide, ?_, ?_, ?_⟩
  · intro f
    constructor
    · intro h
      by_contra hty
      simp only [getFileType, hty, if_false] at h
      split at h
      · exact FileType.noConfusion (Option.some.inj h)
      · split at h
        · exact FileType.noConfusion (Option.some.inj h)
        · exact Option.noConfusion h
    · intro hty
      simp [getFileType, hty]
  · intro f hty hdocx hdoc
    have hpdf : f.type ≠ "application/pdf" := by simp [hty]
    have hw1 : f.type ≠ "application/vnd.openxmlformats-officedocument.wordprocessingml.document" := by
      simp [hty]
    have hw2 : f.type ≠ "application/msword" := by simp [hty]
    simp [getFileType, hpdf, hw1, hw2, hdocx, hdoc, hty]
  · intro f hpdf hdocx
    simp [getFileType, hpdf, hdocx]

/-- C1 witness at concrete inputs. -/
theorem getFileType_order_witness :
    getFileType ⟨"a.txt", "text/plain"⟩ = some FileType.text
      ∧ getFileType ⟨"a.docx", "text/plain"⟩ = some FileType.word := by
  constructor
  · exact getFileType_order.2.2.2.1 ⟨"a.txt", "text/plain"⟩ (by decide) (by decide) (by decide)
  · exact getFileType_order.2.2.2.2 ⟨"a.docx", "text/plain"⟩ (by decide) (by decide)

/-! ## Page navigation (host) and auto-advance ticks (PDF viewers)

`nextPage`/`prevPage` from `src/app/page.tsx`; the two auto-scroll tick
updaters from the canvas PDF viewer (`onPageChange(prev => prev >=
pdfDoc.numPages ? 1 : prev + 1)`) and from the iframe PDF viewer that
`page.tsx` actually mounts (`onPageChange(prev => prev + 1)`).  The
host's page state and its event handlers form a small transition
system; the next/prev buttons are rendered disabled exactly when
`currentPage <= 1` resp. `currentPage >= totalPages`, so a disabled
button produces no state change. -/

/-- `nextPage` from `page.tsx`: `setCurrentPage(prev => Math.min(prev + 1, totalPages))`. -/
def nextPage (currentPage totalPages : Int) : Int := min (currentPage + 1) totalPages

/-- `prevPage` from `page.tsx`: `setCurrentPage(prev => Math.max(prev - 1, 1))`. -/
def prevPage (currentPage : Int) : Int := max (currentPage - 1) 1

/-- The canvas PDF viewer's auto-scroll updater: wraps to page 1 once
`prev >= pdfDoc.numPages`, else advances by one. -/
def canvasAutoTick (numPages prev : Int) : Int :=
  if prev ≥ numPages then 1 else prev + 1

/-- The iframe PDF viewer's auto-scroll updater (the viewer `page.tsx`
mounts): always `prev + 1`, with no wrap and no clamp. -/
def iframeAutoTick (prev : Int) : Int := prev + 1

/-- The auto-scroll interval of both PDF viewers: `3000 / scrollSpeed`
milliseconds. -/
def autoScrollInterval (scrollSpeed : ℚ) : ℚ := 3000 / scrollSpeed

/-- The host's page-related state: `currentPage` and `totalPages` of
`page.tsx`. -/
structure PageState where
  currentPage : Int
  totalPages : Int
deriving DecidableEq

/-- Events that update the host's page state: choosing a file
(`handleFileSelect`/`handleDrop` accept branch), the mounted viewer
reporting a total via `onTotalPagesChange`, the next/prev buttons
(no-ops while rendered disabled), and an auto-scroll tick of the
mounted iframe viewer. -/
inductive HostEvent where
  | selectFile (f : JSFile)
  | viewerReportsTotal (n : Int)
  | next
  | prev
  | autoTickIframe

/-- One host transition per event, following `page.tsx`: file selection
resets to page 1 / total 0 when the file is supported; the next/prev
buttons fire only while enabled (`currentPage < totalPages` resp.
`1 < currentPage`); the iframe auto-tick applies `prev + 1` unclamped. -/
def hostStep (s : PageState) : HostEvent → PageState
  | .selectFile f =>
      match getFileType f with
      | some _ => { currentPage := 1, totalPages := 0 }
      | none => s
  | .viewerReportsTotal n => { s with totalPages := n }
  | .next =>
      if s.currentPage < s.totalPages then
        { s with currentPage := nextPage s.currentPage s.totalPages }
      else s
  | .prev =>
      if 1 < s.currentPage then
        { s with currentPage := prevPage s.currentPage }
      else s
  | .autoTickIframe => { s with currentPage := iframeAutoTick s.currentPage }

/-- Folds a list of events over the host state. -/
def runEvents (s : PageState) (es : List HostEvent) : PageState :=
  es.foldl hostStep s

set_option maxRecDepth 8000 in
/-- C2 counterexample: a reachable host state violates
`currentPage ≤ totalPages`.  Select a PDF, let the mounted iframe
viewer report its placeholder total of 100, and let its auto-scroll
tick fire 100 times: the page reaches 101 while `totalPages = 100 > 0`,
so the tick's page request is not clamped to
`max(1, min(p, totalPages))`. -/
theorem reachable_page_exceeds_total :
    (runEvents ⟨1, 0⟩
        ([HostEvent.selectFile ⟨"a.pdf", "application/pdf"⟩,
          HostEvent.viewerReportsTotal 100]
          ++ List.replicate 100 HostEvent.autoTickIframe)).totalPages = 100
      ∧ (runEvents ⟨1, 0⟩
          ([HostEvent.selectFile ⟨"a.pdf", "application/pdf"⟩,
            HostEvent.viewerReportsTotal 100]
            ++ List.replicate 100 HostEvent.autoTickIframe)).currentPage = 101 := by
  constructor <;> rfl

/-- C2 (amended): the button commands do clamp — an out-of-range
`nextPage`/`prevPage` request lands on `max(1, min(p, totalPages))`
(for `totalPages ≥ 1`), the enabled-guarded buttons preserve
`1 ≤ currentPage ≤ totalPages`, and selecting a supported document
resets `currentPage` to 1 — but the mounted iframe viewer's auto-scroll
tick increments `currentPage` with no clamp, so the bound
`currentPage ≤ totalPages` is not an invariant of the host (see the
counterexample). -/
theorem navigation_clamps :
    (∀ c t : Int, 1 ≤ t → t < c + 1 → nextPage c t = max 1 (min (c + 1) t))
      ∧ (∀ c t : Int, c - 1 < 1 → c - 1 ≤ t → prevPage c = max 1 (min (c - 1) t))
      ∧ (∀ s : PageState, 1 ≤ s.currentPage → s.currentPage ≤ s.totalPages →
          1 ≤ (hostStep s .next).currentPage
            ∧ (hostStep s .next).currentPage ≤ s.totalPages
            ∧ 1 ≤ (hostStep s .prev).currentPage
            ∧ (hostStep s .prev).currentPage ≤ s.totalPages)
      ∧ (∀ (s : PageState) (f : JSFile) (ft : FileType), getFileType f = some ft →
          hostStep s (.selectFile f) = ⟨1, 0⟩) := by
  refine ⟨?_, ?_, ?_, ?_⟩
  · intro c t ht hlt
    simp only [nextPage]
    omega
  · intro c t hlt hle
    simp only [prevPage]
    omega
  · intro s h1 h2
    have hnext : (hostStep s .next).currentPage =
        if s.currentPage < s.totalPages then min (s.currentPage + 1) s.totalPages
        else s.currentPage := by
      simp only [hostStep, nextPage]
      split <;> rfl
    have hprev : (hostStep s .prev).currentPage =
        if 1 < s.currentPage then max (s.currentPage - 1) 1
        else s.currentPage := by
      simp only [hostStep, prevPage]
      split <;> rfl
    rw [hnext, hprev]
    refine ⟨?_, ?_, ?_, ?_⟩ <;> (split <;> omega)
  · intro s f ft hf
    simp only [hostStep, hf]

/-- C2 witness at concrete inputs. -/
theorem navigation_clamps_witness :
    nextPage 5 5 = max 1 (min (5 + 1) 5)
      ∧ prevPage 1 = max 1 (min (1 - 1) 5)
      ∧ 1 ≤ (hostStep ⟨2, 5⟩ .next).currentPage
      ∧ hostStep ⟨2, 5⟩ (.selectFile ⟨"a.pdf", "application/pdf"⟩) = ⟨1, 0⟩ := by
  refine ⟨navigation_clamps.1 5 5 (by decide) (by decide),
    navigation_clamps.2.1 1 5 (by decide) (by decide),
    (navigation_clamps.2.2.1 ⟨2, 5⟩ (by decide) (by decide)).1,
    navigation_clamps.2.2.2 ⟨2, 5⟩ ⟨"a.pdf", "application/pdf"⟩ FileType.pdf (by decide)⟩

/-- C3 counterexample: with a 5-page document and the current page at
5 (= totalPages), the claim requires the auto-advance tick to wrap to
page 1.  The canvas viewer's tick does, but the iframe viewer — the one
`page.tsx` mounts — maps page 5 to 6. -/
theorem iframeAutoTick_no_wrap :
    canvasAutoTick 5 5 = 1 ∧ iframeAutoTick 5 = 6 ∧ (6 : Int) ≠ 1 := by
  decide

/-- C3 (amended): both viewers tick every `3000 / scrollSpeed`
milliseconds; the canvas viewer's tick maps any page `≥ totalPages` to
1 and any page `k < totalPages` to `k + 1`, but the iframe viewer that
the host mounts maps every page `k` to `k + 1` without wrapping. -/
theorem autoTick_behaviour :
    autoScrollInterval 1 = 3000
      ∧ autoScrollInterval (3/2) = 2000
      ∧ (∀ n k : Int, n ≤ k → canvasAutoTick n k = 1)
      ∧ (∀ n k : Int, k < n → canvasAutoTick n k = k + 1)
      ∧ (∀ k : Int, iframeAutoTick k = k + 1) := by
  refine ⟨by norm_num [autoScrollInterval], by norm_num [autoScrollInterval], ?_, ?_, ?_⟩
  · intro n k h
    simp [canvasAutoTick, h]
  · intro n k h
    simp only [canvasAutoTick]
    rw [if_neg (by omega)]
  · intro k
    rfl

/-- C3 witness at concrete inputs. -/
theorem autoTick_behaviour_witness :
    canvasAutoTick 3 3 = 1 ∧ canvasAutoTick 3 1 = 2 := by
  exact ⟨autoTick_behaviour.2.2.1 3 3 (by decide),
    autoTick_behaviour.2.2.2.1 3 1 (by decide)⟩

/-! ## The auto-scroll effect under React dependency semantics

Both PDF viewers register their `setInterval` in a `useEffect` whose
cleanup calls `clearInterval`.  React re-runs an effect (cleanup of the
previous run first, synchronously) exactly when its dependency tuple
changes, and runs the cleanup on unmount.  The iframe viewer's
dependency array is `[autoScroll, scrollSpeed, onPageChange]`
(`onPageChange = setCurrentPage` is referentially stable, so it never
triggers a re-run); the canvas viewer's is
`[autoScroll, scrollSpeed, pdfDoc, onPageChange]`.  A timer is recorded
with the document that was current when it was registered, so a timer
surviving a document change is observable. -/

/-- The props of the iframe PDF viewer that feed its auto-scroll
effect; `fileId` stands for the identity of the `file` prop. -/
structure IframeViewerProps where
  fileId : Nat
  autoScroll : Bool
  scrollSpeed : ℚ
deriving DecidableEq

/-- The state of the canvas PDF viewer that feeds its auto-scroll
effect: `pdfDoc` is `none` until `loadPDF` resolves, then carries the
identity of the loaded document. -/
structure CanvasViewerProps where
  pdfDoc : Option Nat
  autoScroll : Bool
  scrollSpeed : ℚ
deriving DecidableEq

/-- A running interval timer: the document identity current at
registration, and the tick interval in milliseconds. -/
structure AutoTimer where
  docId : Nat
  interval : ℚ
deriving DecidableEq

/-- Dependency tuple of the iframe viewer's auto-scroll effect:
`[autoScroll, scrollSpeed]` (its `onPageChange` dependency is a stable
setter).  The `file` prop is absent. -/
def iframeAutoDeps (p : IframeViewerProps) : Bool × ℚ :=
  (p.autoScroll, p.scrollSpeed)

/-- Dependency tuple of the canvas viewer's auto-scroll effect:
`[autoScroll, scrollSpeed, pdfDoc]`. -/
def canvasAutoDeps (p : CanvasViewerProps) : Bool × ℚ × Option Nat :=
  (p.autoScroll, p.scrollSpeed, p.pdfDoc)

/-- Body of the iframe viewer's auto-scroll effect: when `autoScroll`
is on it registers an interval of `3000 / scrollSpeed`; otherwise no
timer runs. -/
def iframeAutoEffectBody (p : IframeViewerProps) : Option AutoTimer :=
  if p.autoScroll then some ⟨p.fileId, autoScrollInterval p.scrollSpeed⟩ else none

/-- Body of the canvas viewer's auto-scroll effect: requires
`autoScroll && pdfDoc`. -/
def canvasAutoEffectBody (p : CanvasViewerProps) : Option AutoTimer :=
  match p.pdfDoc with
  | some d => if p.autoScroll then some ⟨d, autoScrollInterval p.scrollSpeed⟩ else none
  | none => none

/-- React's update semantics for the iframe viewer's auto-scroll
effect on a prop change: if the dependency tuple is unchanged the
effect does not re-run and the existing timer (if any) keeps running;
otherwise the cleanup clears the old interval and the body re-runs. -/
def iframeAutoEffectUpdate (old new : IframeViewerProps) (t : Option AutoTimer) :
    Option AutoTimer :=
  if iframeAutoDeps old = iframeAutoDeps new then t else iframeAutoEffectBody new

/-- React's update semantics for the canvas viewer's auto-scroll
effect on a prop/state change. -/
def canvasAutoEffectUpdate (old new : CanvasViewerProps) (t : Option AutoTimer) :
    Option AutoTimer :=
  if canvasAutoDeps old = canvasAutoDeps new then t else canvasAutoEffectBody new

/-- Unmounting the viewer runs the effect cleanup: no timer survives. -/
def autoEffectUnmount (_t : Option AutoTimer) : Option AutoTimer := none

/-- C4 counterexample: in the mounted iframe viewer, replacing the
document (file 1 → file 2) while auto-scroll is on changes none of the
effect's dependencies, so the timer registered for document 1 is not
cancelled: it survives the replacement and keeps firing page-advance
events while document 2 is current. -/
theorem iframe_timer_survives_document_change :
    iframeAutoEffectUpdate ⟨1, true, 1⟩ ⟨2, true, 1⟩
        (iframeAutoEffectBody ⟨1, true, 1⟩) = some ⟨1, 3000⟩
      ∧ (⟨1, 3000⟩ : AutoTimer).docId ≠ (2 : Nat) := by
  constructor
  · simp [iframeAutoEffectUpdate, iframeAutoDeps, iframeAutoEffectBody, autoScrollInterval]
  · decide

/-- C4 (amended): the auto-scroll timer is cancelled synchronously
when auto-scroll is turned off (no new timer runs), when `scrollSpeed`
changes (a fresh timer replaces it), and on unmount; the canvas
viewer's effect also cancels on a document (`pdfDoc`) change — but the
iframe viewer that the host mounts does not list the document among
the effect's dependencies, so a document change alone leaves the old
document's timer running (see the counterexample). -/
theorem autoScroll_timer_cancellation :
    (∀ (old new : IframeViewerProps) (t : Option AutoTimer),
        old.autoScroll = true → new.autoScroll = false →
        iframeAutoEffectUpdate old new t = none)
      ∧ (∀ (old new : IframeViewerProps) (t : Option AutoTimer),
          old.scrollSpeed ≠ new.scrollSpeed →
          iframeAutoEffectUpdate old new t = iframeAutoEffectBody new)
      ∧ (∀ (old new : CanvasViewerProps) (t : Option AutoTimer),
          old.pdfDoc ≠ new.pdfDoc →
          canvasAutoEffectUpdate old new t = canvasAutoEffectBody new)
      ∧ (∀ t : Option AutoTimer, autoEffectUnmount t = none) := by
  refine ⟨?_, ?_, ?_, fun _ => rfl⟩
  · intro old new t hon hoff
    have hdeps : iframeAutoDeps old ≠ iframeAutoDeps new := by
      simp [iframeAutoDeps, hon, hoff]
    simp [iframeAutoEffectUpdate, hdeps, iframeAutoEffectBody, hoff]
  · intro old new t hspeed
    have hdeps : iframeAutoDeps old ≠ iframeAutoDeps new := by
      simp [iframeAutoDeps, hspeed]
    simp [iframeAutoEffectUpdate, hdeps]
  · intro old new t hdoc
    have hdeps : canvasAutoDeps old ≠ canvasAutoDeps new := by
      simp [canvasAutoDeps, hdoc]
    simp [canvasAutoEffectUpdate, hdeps]

/-- C4 witness at concrete inputs. -/
theorem autoScroll_timer_cancellation_witness :
    iframeAutoEffectUpdate ⟨1, true, 1⟩ ⟨1, false, 1⟩ (some ⟨1, 3000⟩) = none
      ∧ iframeAutoEffectUpdate ⟨1, true, 1⟩ ⟨1, true, 2⟩ (some ⟨1, 3000⟩)
          = iframeAutoEffectBody ⟨1, true, 2⟩
      ∧ canvasAutoEffectUpdate ⟨some 1, true, 1⟩ ⟨some 2, true, 1⟩ (some ⟨1, 3000⟩)
          = canvasAutoEffectBody ⟨some 2, true, 1⟩ := by
  refine ⟨autoScroll_timer_cancellation.1 ⟨1, true, 1⟩ ⟨1, false, 1⟩ _ rfl rfl,
    autoScroll_timer_cancellation.2.1 ⟨1, true, 1⟩ ⟨1, true, 2⟩ _ (by norm_num),
    autoScroll_timer_cancellation.2.2.1 ⟨some 1, true, 1⟩ ⟨some 2, true, 1⟩ _ (by decide)⟩

/-! ## PDF loading and page-count reporting -/

/-- A parsed PDF document as the external PDF library hands it back:
only its page count matters to this core. -/
structure PdfDocument where
  numPages : Nat
deriving DecidableEq

/-- The canvas viewer's `loadPDF`: on a successful parse it calls
`onTotalPagesChange(pdf.numPages)`; on a parse error it logs and
reports no count.  The returned value is the reported count, `none`
when nothing was reported. -/
def canvasLoadPDF (parseResult : Except String PdfDocument) : Option Nat :=
  match parseResult with
  | .ok pdf => some pdf.numPages
  | .error _ => none

/-- The iframe viewer's `loadPDF` (the viewer `page.tsx` mounts): it
never parses the document and always calls `onTotalPagesChange(100)`,
a placeholder.  The argument is the PDF structure the file actually
contains, which the function ignores. -/
def iframeLoadPDF (_doc : PdfDocument) : Nat := 100

/-- C5 counterexample: loading a 3-page PDF through the mounted iframe
viewer reports 100 pages, not the document's actual page count. -/
theorem iframeLoadPDF_placeholder :
    iframeLoadPDF ⟨3⟩ = 100 ∧ (PdfDocument.mk 3).numPages ≠ 100 := by
  decide

/-- C5 (amended): the canvas viewer's load reports the parsed
document's actual page count on success and reports no count on a
parse failure; but the iframe viewer that the host mounts always
reports the placeholder 100, whatever the document's actual page
count. -/
theorem loadPDF_reporting :
    (∀ pdf : PdfDocument, canvasLoadPDF (.ok pdf) = some pdf.numPages)
      ∧ (∀ e : String, canvasLoadPDF (.error e) = none)
      ∧ (∀ doc : PdfDocument, iframeLoadPDF doc = 100) := by
  exact ⟨fun _ => rfl, fun _ => rfl, fun _ => rfl⟩

/-! ## Theme resolution: text opacity curves -/

/-- The three themes (`"dark" | "sepia" | "high-contrast"`). -/
inductive Theme where
  | dark
  | sepia
  | highContrast
deriving DecidableEq

/-- Body-text opacity of the Word viewer's `getContentStyles`:
`Math.min(1, 0.7 + (contrast - 1) * 0.3)`, injected into every theme's
style rules. -/
def wordTextOpacity (contrast : ℚ) : ℚ := min 1 (0.7 + (contrast - 1) * 0.3)

/-- Heading opacity of the Word viewer's `getContentStyles`:
`Math.min(1, 0.9 + (contrast - 1) * 0.1)`. -/
def wordHeadingOpacity (contrast : ℚ) : ℚ := min 1 (0.9 + (contrast - 1) * 0.1)

/-- Text opacity of the Text viewer's `getTextColor`:
`Math.min(1, 0.8 + (contrast - 1) * 0.2)`. -/
def textViewerOpacity (contrast : ℚ) : ℚ := min 1 (0.8 + (contrast - 1) * 0.2)

/-- An `rgba(r, g, b, a)` colour. -/
structure RGBA where
  r : ℚ
  g : ℚ
  b : ℚ
  a : ℚ
deriving DecidableEq

/-- The Text viewer's `getTextColor`: a per-theme base colour with the
contrast-driven opacity as alpha. -/
def getTextColor (theme : Theme) (contrast : ℚ) : RGBA :=
  match theme with
  | .sepia => ⟨232, 213, 183, textViewerOpacity contrast⟩
  | .highContrast => ⟨255, 255, 255, textViewerOpacity contrast⟩
  | .dark => ⟨229, 231, 235, textViewerOpacity contrast⟩

/-- Every theme's resolved text colour carries the same
contrast-driven alpha. -/
theorem getTextColor_alpha (theme : Theme) (c : ℚ) :
    (getTextColor theme c).a = textViewerOpacity c := by
  cases theme <;> rfl

/-- C6: for every theme and every contrast in `[0.5, 2]`, each resolved
text opacity (Text-viewer body text via `getTextColor`, Word-viewer
body text and headings) lies in `[0, 1]`, and each is monotonically
non-decreasing in the contrast. -/
theorem textOpacity_bounds_mono :
    (∀ (theme : Theme) (c : ℚ), 1/2 ≤ c → c ≤ 2 →
        (0 ≤ (getTextColor theme c).a ∧ (getTextColor theme c).a ≤ 1)
          ∧ (0 ≤ wordTextOpacity c ∧ wordTextOpacity c ≤ 1)
          ∧ (0 ≤ wordHeadingOpacity c ∧ wordHeadingOpacity c ≤ 1))
      ∧ (∀ (theme : Theme) (c₁ c₂ : ℚ), 1/2 ≤ c₁ → c₁ ≤ c₂ → c₂ ≤ 2 →
          (getTextColor theme c₁).a ≤ (getTextColor theme c₂).a
            ∧ wordTextOpacity c₁ ≤ wordTextOpacity c₂
            ∧ wordHeadingOpacity c₁ ≤ wordHeadingOpacity c₂) := by
  constructor
  · intro theme c h1 h2
    rw [getTextColor_alpha]
    refine ⟨⟨?_, min_le_left 1 _⟩, ⟨?_, min_le_left 1 _⟩, ⟨?_, min_le_left 1 _⟩⟩ <;>
      exact le_min (by norm_num) (by nlinarith)
  · intro theme c₁ c₂ h1 h12 h2
    rw [getTextColor_alpha, getTextColor_alpha]
    refine ⟨min_le_min le_rfl (by nlinarith), min_le_min le_rfl (by nlinarith),
      min_le_min le_rfl (by nlinarith)⟩

/-- C6 witness at concrete inputs. -/
theorem textOpacity_bounds_mono_witness :
    (0 ≤ (getTextColor Theme.dark 1).a ∧ (getTextColor Theme.dark 1).a ≤ 1)
      ∧ wordTextOpacity 1 ≤ wordTextOpacity (3/2) := by
  exact ⟨(textOpacity_bounds_mono.1 Theme.dark 1 (by norm_num) (by norm_num)).1,
    (textOpacity_bounds_mono.2 Theme.dark 1 (3/2) (by norm_num) (by norm_num)
      (by norm_num)).2.1⟩

/-- C10: under every contrast in `[0.5, 2]`, the Word viewer's heading
opacity is at least its body-text opacity, so headings never render
lighter than body text. -/
theorem heading_opacity_ge_body :
    ∀ c : ℚ, 1/2 ≤ c → c ≤ 2 → wordTextOpacity c ≤ wordHeadingOpacity c := by
  intro c h1 h2
  exact min_le_min le_rfl (by nlinarith)

/-- C10 witness at a concrete input. -/
theorem heading_opacity_ge_body_witness :
    wordTextOpacity 1 ≤ wordHeadingOpacity 1 :=
  heading_opacity_ge_body 1 (by norm_num) (by norm_num)

/-! ## Sepia pixel transform (canvas PDF viewer `renderPage`) -/

/-- The sepia branch of the canvas viewer's `renderPage`, per pixel:
`data[i] = Math.min(255, r*0.393 + g*0.769 + b*0.189)` and the two
analogous channels. -/
def sepiaTransform (r g b : ℚ) : ℚ × ℚ × ℚ :=
  (min 255 (r * 0.393 + g * 0.769 + b * 0.189),
   min 255 (r * 0.349 + g * 0.686 + b * 0.168),
   min 255 (r * 0.272 + g * 0.534 + b * 0.131))

/-- C7: the sepia transform is exactly the fixed matrix
`R' = 0.393R + 0.769G + 0.189B`, `G' = 0.349R + 0.686G + 0.168B`,
`B' = 0.272R + 0.534G + 0.131B` under a `min 255` clamp, and for
channels in `[0, 255]` every output channel lies in `[0, 255]`. -/
theorem sepiaTransform_matrix_and_range :
    ∀ r g b : ℚ, 0 ≤ r → r ≤ 255 → 0 ≤ g → g ≤ 255 → 0 ≤ b → b ≤ 255 →
      sepiaTransform r g b
          = (min 255 (0.393 * r + 0.769 * g + 0.189 * b),
             min 255 (0.349 * r + 0.686 * g + 0.168 * b),
             min 255 (0.272 * r + 0.534 * g + 0.131 * b))
        ∧ (0 ≤ (sepiaTransform r g b).1 ∧ (sepiaTransform r g b).1 ≤ 255)
        ∧ (0 ≤ (sepiaTransform r g b).2.1 ∧ (sepiaTransform r g b).2.1 ≤ 255)
        ∧ (0 ≤ (sepiaTransform r g b).2.2 ∧ (sepiaTransform r g b).2.2 ≤ 255) := by
  intro r g b hr0 hr1 hg0 hg1 hb0 hb1
  refine ⟨by simp only [sepiaTransform] ; ring_nf, ?_, ?_, ?_⟩ <;>
    exact ⟨le_min (by norm_num) (by nlinarith), min_le_left 255 _⟩

/-- C7 witness at a concrete pixel (pure white stays clamped at 255). -/
theorem sepiaTransform_matrix_and_range_witness :
    sepiaTransform 255 255 255
        = (min 255 (0.393 * 255 + 0.769 * 255 + 0.189 * 255),
           min 255 (0.349 * 255 + 0.686 * 255 + 0.168 * 255),
           min 255 (0.272 * 255 + 0.534 * 255 + 0.131 * 255))
      ∧ 0 ≤ (sepiaTransform 255 255 255).1 := by
  have h := sepiaTransform_matrix_and_range 255 255 255 (by norm_num) (by norm_num)
    (by norm_num) (by norm_num) (by norm_num) (by norm_num)
  exact ⟨h.1, h.2.1.1⟩

/-! ## Zoom commands (host) -/

/-- `zoomIn` from `page.tsx`: `setZoom(prev => Math.min(prev + 0.25, 3.0))`. -/
def zoomIn (zoom : ℚ) : ℚ := min (zoom + 0.25) 3.0

/-- `zoomOut` from `page.tsx`: `setZoom(prev => Math.max(prev - 0.25, 0.5))`. -/
def zoomOut (zoom : ℚ) : ℚ := max (zoom - 0.25) 0.5

/-- C8: from zoom 1.0, seven `+0.25` zoom-in steps reach 2.75, the
eighth lands on the 3.0 cap, every further zoom-in is a no-op at 3.0,
and the zoom commands keep zoom inside `[0.5, 3.0]` (in particular
zoom-out never goes below 0.5). -/
theorem zoom_clamped :
    zoomIn^[7] 1 = 2.75
      ∧ zoomIn^[8] 1 = 3
      ∧ (∀ n : ℕ, zoomIn^[8 + n] 1 = 3)
      ∧ (∀ z : ℚ, 1/2 ≤ z → z ≤ 3 →
          (1/2 ≤ zoomIn z ∧ zoomIn z ≤ 3) ∧ (1/2 ≤ zoomOut z ∧ zoomOut z ≤ 3)) := by
  have h7 : zoomIn^[7] 1 = 2.75 := by
    show zoomIn (zoomIn (zoomIn (zoomIn (zoomIn (zoomIn (zoomIn 1)))))) = 2.75
    norm_num [zoomIn, min_def]
  have h8 : zoomIn^[8] 1 = 3 := by
    show zoomIn (zoomIn^[7] 1) = 3
    rw [h7]
    norm_num [zoomIn, min_def]
  have hfix : zoomIn 3 = 3 := by norm_num [zoomIn, min_def]
  refine ⟨h7, h8, ?_, ?_⟩
  · intro n
    rw [add_comm, Function.iterate_add_apply, h8, Function.iterate_fixed hfix]
  · intro z hz1 hz2
    constructor
    · constructor
      · exact le_min (by linarith) (by norm_num)
      · exact le_trans (min_le_right _ _) (by norm_num)
    · constructor
      · exact le_trans (by norm_num) (le_max_right _ _)
      · exact max_le (by linarith) (by norm_num)

/-- C8 witness at concrete inputs. -/
theorem zoom_clamped_witness :
    zoomIn^[8 + 2] 1 = 3 ∧ (1/2 ≤ zoomOut (1/2) ∧ zoomOut (1/2) ≤ 3) :=
  ⟨zoom_clamped.2.2.1 2, (zoom_clamped.2.2.2 (1/2) (by norm_num) (by norm_num)).2⟩

/-! ## File selection: atomic rejection of unsupported files -/

/-- The full `useState` state of the `DocumentReader` host that an
accepted file or a rejection could touch. -/
structure ViewState where
  documentFile : Option JSFile
  fileType : Option FileType
  currentPage : Int
  totalPages : Int
  zoom : ℚ
  rotation : Int
  theme : Theme
  autoScroll : Bool
  scrollSpeed : ℚ
  contrast : ℚ
  brightness : ℚ
deriving DecidableEq

/-- The alert text both handlers show for an unsupported file. -/
def invalidFileMessage : String :=
  "Please select a valid PDF, Word document, or text file"

/-- `handleFileSelect` from `page.tsx`: for `event.target.files?.[0]`
(maybe absent), a supported file is installed with page 1 / total 0 and
everything else untouched; an unsupported file triggers the alert and
no state change.  Returns the new state and the alert message, if
any. -/
def handleFileSelect (s : ViewState) (selected : Option JSFile) :
    ViewState × Option String :=
  match selected with
  | none => (s, none)
  | some f =>
      match getFileType f with
      | some t =>
          ({ s with documentFile := some f, fileType := some t, currentPage := 1, totalPages := 0 }, none)
      | none => (s, some invalidFileMessage)

/-- `handleDrop` from `page.tsx`: same accept/reject logic for
`event.dataTransfer.files[0]`. -/
def handleDrop (s : ViewState) (dropped : Option JSFile) :
    ViewState × Option String :=
  match dropped with
  | none => (s, none)
  | some f =>
      match getFileType f with
      | some t =>
          ({ s with documentFile := some f, fileType := some t, currentPage := 1, totalPages := 0 }, none)
      | none => (s, some invalidFileMessage)

/-- C9: whenever detection returns Unsupported, both the picker handler
and the drop handler show the user-visible message and return the state
unchanged in every field — documentFile, fileType, currentPage,
totalPages, zoom, rotation, theme, auto-scroll, scroll speed, contrast
and brightness. -/
theorem unsupported_rejection_atomic :
    ∀ (s : ViewState) (f : JSFile), getFileType f = none →
      handleFileSelect s (some f) = (s, some invalidFileMessage)
        ∧ handleDrop s (some f) = (s, some invalidFileMessage) := by
  intro s f h
  constructor <;> simp [handleFileSelect, handleDrop, h]

/-- C9 witness at a concrete state and file. -/
theorem unsupported_rejection_atomic_witness :
    handleFileSelect
        ⟨none, none, 1, 0, 1, 0, Theme.dark, false, 1, 1, 1⟩ (some ⟨"cat.png", "image/png"⟩)
      = (⟨none, none, 1, 0, 1, 0, Theme.dark, false, 1, 1, 1⟩, some invalidFileMessage) :=
  (unsupported_rejection_atomic
    ⟨none, none, 1, 0, 1, 0, Theme.dark, false, 1, 1, 1⟩
    ⟨"cat.png", "image/png"⟩ (by decide)).1

end DarkReader
